import Mathlib

/-
  Verification development for the citu-speech-evaluation backend.

  Shallow embedding of `src/backend/test_eval.py` (evaluation pipeline) and
  `src/backend/app.py` (HTTP orchestration and question session), with the
  three remote collaborators (Deepgram transcription, acoustic toolkit input,
  Gemini rubric judge) modelled as explicit environment data, and every
  outward call recorded in an explicit call log.

  Numeric values that Python holds as floats are modelled as exact rationals;
  Python `round(x, 2)` is modelled as round-half-to-even on rationals.
-/

/-! ## Python-level helpers -/

/-- The ASCII whitespace class a Python `str.strip()` removes. -/
def isPySpace (c : Char) : Bool :=
  c == ' ' || c == '\t' || c == '\n' || c == '\x0d' || c == '\x0b' || c == '\x0c'

/-- Python `str.strip()`: drop leading and trailing whitespace. -/
def pyStrip (s : String) : String :=
  String.mk (((s.toList.dropWhile isPySpace).reverse.dropWhile isPySpace).reverse)

/-- Truthiness of `request.form.get(...)`: `None` and the empty string are falsy. -/
def pyFalsyOptStr : Option String → Bool
  | none => true
  | some s => s == ""

/-- Round to the nearest integer, halves up (computable form of `round` on `ℚ`). -/
def ratRoundHalfUp (x : ℚ) : ℤ := Rat.floor (x + 1 / 2)

/-- Round-half-to-even to an integer, as Python `round` does (modelled on rationals):
away from a tie it agrees with rounding to nearest, and on a tie it picks the even
neighbour (obtained as twice the nearest integer to `x / 2`). -/
def bankersRound (x : ℚ) : ℤ :=
  if x - Rat.floor x = 1 / 2 then 2 * ratRoundHalfUp (x / 2) else ratRoundHalfUp x

/-- Python `round(x, 2)`: keep two decimal places, ties to even. -/
def pyRound2 (x : ℚ) : ℚ := (bankersRound (x * 100) : ℚ) / 100

/-- Python `str.title()` applied after `.replace("_", " ")` in the score rendering. -/
def pyTitle (s : String) : String :=
  String.intercalate " " ((s.splitOn " ").map String.capitalize)

/-! ## Python dict values (for the verdict dictionaries built by `test_eval.py`) -/

/-- A Python value as it appears in the judge result dictionaries. -/
inductive PyVal where
  | int (n : ℤ)
  | str (s : String)
  | dict (entries : List (String × PyVal))

/-- A Python dictionary with string keys. -/
def PyDict := List (String × PyVal)

/-- Python `key in d` on a dict: key membership. -/
def hasKey (d : PyDict) (k : String) : Bool := d.any (fun p => p.1 == k)

/-- Python `d.get(key, default)`. -/
def pyGet (d : PyDict) (k : String) (default : PyVal) : PyVal :=
  match d.find? (fun p => p.1 == k) with
  | some p => p.2
  | none => default

/-- Rendering of a value inside a Python f-string (only the string case is
reachable in this code base). -/
def pyValAsStr : PyVal → String
  | .str s => s
  | .int n => toString n
  | .dict _ => ""

/-! ## Acoustic analysis: `analyze_audio` (test_eval.py, section 9) -/

/-- The decoded audio signal as the parselmouth toolkit reports it: total
duration in seconds, and the frame-wise pitch track (`frequency` array, one
rational per frame, `0` on unvoiced frames). -/
structure SoundInput where
  duration : ℚ
  pitchFrames : List ℚ

/-- The dictionary returned by `analyze_audio`. -/
structure AudioMetrics where
  duration : ℚ
  avg_pitch_hz : ℚ
  estimated_wpm : ℚ
deriving DecidableEq

/-- The function `analyze_audio`: keep only nonzero pitch frames, average them (0 if none),
estimate the word count as `duration / 0.4` and words-per-minute as
`(estimate / duration) * 60`; round every reported number to two decimals. -/
def analyze_audio (snd : SoundInput) : AudioMetrics :=
  let pitch_values := snd.pitchFrames.filter (fun f => f != 0)
  let avg_pitch : ℚ := if pitch_values.length ≠ 0 then pitch_values.sum / pitch_values.length else 0
  let words_estimate : ℚ := snd.duration / (2 / 5)
  let words_per_min : ℚ := (words_estimate / snd.duration) * 60
  { duration := pyRound2 snd.duration
    avg_pitch_hz := pyRound2 avg_pitch
    estimated_wpm := pyRound2 words_per_min }

/-- Spec-side notion: the voiced frames are those with strictly positive frequency. -/
def voicedFrames (l : List ℚ) : List ℚ := l.filter (fun f => decide (0 < f))

/-- Spec-side notion: mean of a list of rationals, 0 for the empty list. -/
def listMean (l : List ℚ) : ℚ := if l.length ≠ 0 then l.sum / l.length else 0

/-! ### Arithmetic lemmas about the rounding helper -/

theorem ratFloor_eq_intFloor (q : ℚ) : Rat.floor q = ⌊q⌋ := by
  rw [Rat.floor_def, Rat.floor_def']

theorem ratRoundHalfUp_nonneg (x : ℚ) (h : 0 ≤ x) : 0 ≤ ratRoundHalfUp x := by
  unfold ratRoundHalfUp
  rw [ratFloor_eq_intFloor]
  exact Int.floor_nonneg.mpr (by linarith)

theorem bankersRound_nonneg (x : ℚ) (h : 0 ≤ x) : 0 ≤ bankersRound x := by
  unfold bankersRound
  split
  · have : (0 : ℤ) ≤ ratRoundHalfUp (x / 2) := ratRoundHalfUp_nonneg _ (by positivity)
    omega
  · exact ratRoundHalfUp_nonneg _ h

theorem pyRound2_nonneg (x : ℚ) (h : 0 ≤ x) : 0 ≤ pyRound2 x := by
  unfold pyRound2
  have : (0 : ℤ) ≤ bankersRound (x * 100) := bankersRound_nonneg _ (by positivity)
  have h100 : (0 : ℚ) ≤ (bankersRound (x * 100) : ℚ) := by exact_mod_cast this
  positivity

theorem pyRound2_of_int (n : ℤ) : pyRound2 (n : ℚ) = n := by
  unfold pyRound2 bankersRound ratRoundHalfUp
  have hcast : ((n : ℚ)) * 100 = ((100 * n : ℤ) : ℚ) := by push_cast; ring
  rw [hcast, ratFloor_eq_intFloor, Int.floor_intCast, if_neg (by norm_num),
    ratFloor_eq_intFloor, Int.floor_int_add]
  norm_num

theorem pyRound2_zero : pyRound2 0 = 0 := by
  have := pyRound2_of_int 0
  norm_num at this
  exact this

theorem pyRound2_150 : pyRound2 150 = 150 := by
  have := pyRound2_of_int 150
  norm_num at this
  exact this

/-! ## Rubric judge: `judge_answer_detailed`, `judge_answer_gemini` (test_eval.py) -/

/-- The pydantic `CategoryScores` model. -/
structure CategoryScores where
  task_relevance : ℤ
  grammar_lexis : ℤ
  discourse_management : ℤ
  pronunciation_fluency : ℤ
  coherence_appropriateness : ℤ
deriving DecidableEq

/-- The pydantic `Verdict` model: the structured shape the Gemini response must decode into. -/
structure Verdict where
  score : ℤ
  category_scores : CategoryScores
  comment : String
deriving DecidableEq

/-- The dictionary `Verdict.dict()` produces. -/
def verdict_dict (v : Verdict) : PyDict :=
  [("score", .int v.score),
   ("category_scores", .dict
      [("task_relevance", .int v.category_scores.task_relevance),
       ("grammar_lexis", .int v.category_scores.grammar_lexis),
       ("discourse_management", .int v.category_scores.discourse_management),
       ("pronunciation_fluency", .int v.category_scores.pronunciation_fluency),
       ("coherence_appropriateness", .int v.category_scores.coherence_appropriateness)]),
   ("comment", .str v.comment)]

/-- The function `create_error_verdict`: the default zero-score dictionary built when the Gemini
call fails or its response has no parsed verdict.  Note its keys are exactly
`score`, `category_scores` and `comment` — it carries no `error` key. -/
def create_error_verdict (error_message : String) : PyDict :=
  [("score", .int 0),
   ("category_scores", .dict
      [("task_relevance", .int 0),
       ("grammar_lexis", .int 0),
       ("discourse_management", .int 0),
       ("pronunciation_fluency", .int 0),
       ("coherence_appropriateness", .int 0)]),
   ("comment", .str ("Error: " ++ error_message))]

/-- The fixed rubric prompt `detailed_gpt_prompt`, as the function of question and
answer that `.format` makes of it.  The literal rubric text is reproduced with
punctuation normalised to plain ASCII (the source file stores it with a broken
encoding); its content is treated as opaque by every theorem below.  Note its only
parameters are the question and the answer — the keyword list never appears. -/
def detailed_gpt_prompt_fmt (question answer : String) : String :=
  "\nYou are an English language speaking examiner following international speaking rubrics (e.g., IELTS, TOEFL, CEFR).\n\nQuestion: "
    ++ question
    ++ "\nStudents Answer: "
    ++ answer
    ++ "\n\nEvaluate the response using the following 5 categories:\n\n    Task Relevance - Does the response appropriately and fully address the prompt? [IELTS, TOEFL]\n    Grammar and Lexis - Is the grammar accurate and vocabulary appropriate? Evaluate range and correctness. [CEFR, IELTS]\n    Discourse Management - Is the response well-structured, connected, and cohesive? Are ideas extended and logically organized? [CEFR, TOEFL]\n    Pronunciation and Fluency - Is the speech fluent, with minimal unnatural pauses or hesitation? Deduct for filler words. [IELTS, CEFR]\n    Coherence and Appropriateness - Does the tone fit an academic or formal setting? Is the response socially and culturally appropriate? [CEFR]\n\nP.S. Scoring are based on a 1-10 scale, with 10 being perfect. And provide comment also.\n"

/-- The JSON-format instructions `judge_answer_detailed` appends to the rubric prompt. -/
def detailed_json_suffix : String :=
  "\n\nReturn a JSON object:\n\x7b\n  \"score\": (1-10 overall),\n  \"category_scores\": \x7b\n    \"task_relevance\": x,\n    \"grammar_lexis\": x,\n    \"discourse_management\": x,\n    \"pronunciation_fluency\": x,\n    \"coherence_appropriateness\": x\n  \x7d,\n  \"comment\": \"Give constructive feedback. If present, mention filler words, grammar errors, or disorganization.\"\n\x7d"

/-- The fixed JSON string `judge_answer_detailed` returns for an empty or
whitespace-only answer, without any remote call. -/
def empty_transcript_verdict_json : String :=
  "\x7b\n    \"score\": 0,\n    \"category_scores\": \x7b\n    \"task_relevance\": 0,\n    \"grammar_lexis\": 0,\n    \"discourse_management\": 0,\n    \"pronunciation_fluency\": 0,\n    \"coherence_appropriateness\": 0\n  \x7d,\n  \"comment\": \"The transcript was empty or unintelligible. Please ensure the response is clearly audible.\"\n\x7d"

/-- The function `judge_answer_detailed` (the GPT judge): short-circuits locally on a blank
answer; otherwise builds the rubric prompt and issues the remote chat call,
modelled by `remote` applied to the prompt.  Returns the reply string together
with a flag recording whether the remote service was invoked.  The source also
computes a `scores_text` rendering of the optional system scores and then never
uses it in the prompt; that computation is mirrored here. -/
def judge_answer_detailed (question answer : String) (scores : Option (List (String × ℚ)))
    (remote : String → String) : String × Bool :=
  if pyStrip answer = "" then
    (empty_transcript_verdict_json, false)
  else
    let scores_text := match scores with
      | none => ""
      | some l =>
          "\nSystem Scores (for reference):\n"
            ++ String.intercalate "\n"
                (l.map (fun (kv : String × ℚ) =>
                  "- " ++ pyTitle ((kv.1).replace "_" " ") ++ ": " ++ toString kv.2))
            ++ "\n"
    let _ := scores_text
    let prompt := detailed_gpt_prompt_fmt question answer ++ detailed_json_suffix
    (remote prompt, true)

/-- Outcome of the single `client_gemini.models.generate_content` call:
a response whose `parsed` attribute decodes into a `Verdict`, a response with no
usable parsed attribute, or an exception raised by the call. -/
inductive GeminiResponse where
  | parsedVerdict (v : Verdict)
  | noParsed
  | raises (msg : String)

/-- The function `judge_answer_gemini` (the judge the pipeline uses): builds the rubric prompt
and always issues the remote Gemini call; on a parsed response it returns
`Verdict.dict()`, and on a missing parsed attribute or an exception it returns
`create_error_verdict`.  The `scores` argument exists in the source signature and
is never read.  The returned flag records that the remote service was invoked. -/
def judge_answer_gemini (question answer : String) (scores : Option AudioMetrics)
    (response : GeminiResponse) : PyDict × Bool :=
  let _ := scores
  let _ := detailed_gpt_prompt_fmt question answer
  match response with
  | .parsedVerdict v => (verdict_dict v, true)
  | .noParsed => (create_error_verdict "No valid response from Gemini", true)
  | .raises msg => (create_error_verdict ("Gemini evaluation failed: " ++ msg), true)

/-! ## Evaluation pipeline: `run_full_evaluation` (test_eval.py, section 10) -/

/-- The dictionary `transcribe_audio_deepgram` returns on success: the transcript
text plus the filler and word annotations passed through from the service. -/
structure TranscriptionResult where
  transcript : String
  fillers : List String
  words : List String
deriving DecidableEq

/-- The external collaborators of one pipeline run: whether the converted audio
file exists on disk, the Deepgram outcome (`none` models an exception or a
response without results, both of which make `transcribe_audio_deepgram` return
`None`), the decoded audio signal the parselmouth toolkit reads, and the outcome
of the Gemini call. -/
structure PipelineEnv where
  audioExists : Bool
  deepgram : Option TranscriptionResult
  sound : SoundInput
  gemini : GeminiResponse

/-- Which externally visible calls a pipeline run performed. -/
structure PipelineCalls where
  transcribe : Bool
  analyze : Bool
  judgeRemote : Bool
deriving DecidableEq

/-- No calls performed. -/
def noCalls : PipelineCalls := ⟨false, false, false⟩

/-- The dictionary `run_full_evaluation` returns: an error dictionary
`{error, message, status_code}` or the success dictionary. -/
inductive PipelineResult where
  | error (err msg : String) (status : ℕ)
  | success (transcript : String) (transcript_data : TranscriptionResult)
      (audio_metrics : AudioMetrics) (score : PyVal) (category_scores : PyVal)
      (comment : PyVal)

/-- The function `run_full_evaluation`: validate inputs, transcribe, reject blank transcripts,
analyze the audio, judge with Gemini, and assemble the response; each stage
short-circuits with a tagged error dictionary.  The `keywords` parameter is part
of the source signature and is never read.  The source also guards the analyzer
result with `if not audio_metrics`, which can never fire because `analyze_audio`
always returns a populated three-key dictionary; that dead branch is omitted. -/
def run_full_evaluation (question : String) (keywords : List String) (audio_file : String)
    (env : PipelineEnv) : PipelineResult × PipelineCalls :=
  let _ := keywords
  if question = "" ∨ audio_file = "" then
    (.error "INVALID_INPUT" "Question and audio file are required" 400, noCalls)
  else if !env.audioExists then
    (.error "FILE_NOT_FOUND" ("Audio file not found: " ++ audio_file) 404, noCalls)
  else
    match env.deepgram with
    | none =>
        (.error "TRANSCRIPTION_FAILED"
          "Audio transcription failed - no data returned from Deepgram" 502,
         ⟨true, false, false⟩)
    | some transcript_data =>
        let transcript := transcript_data.transcript
        if transcript = "" ∨ pyStrip transcript = "" then
          (.error "EMPTY_TRANSCRIPT" "Transcription failed - no speech detected in audio" 422,
           ⟨true, false, false⟩)
        else
          let audio_metrics := analyze_audio env.sound
          let jr := judge_answer_gemini question transcript (some audio_metrics) env.gemini
          if hasKey jr.1 "error" then
            (.error "EVALUATION_FAILED"
              ("AI evaluation failed: " ++ pyValAsStr (pyGet jr.1 "comment" (.str "Unknown error")))
              502,
             ⟨true, true, jr.2⟩)
          else
            (.success transcript transcript_data audio_metrics
              (pyGet jr.1 "score" (.int 0))
              (pyGet jr.1 "category_scores" (.dict []))
              (pyGet jr.1 "comment" (.str "No feedback available.")),
             ⟨true, true, jr.2⟩)

/-! ## HTTP endpoint `evaluate` (app.py, section 7) -/

/-- The form data of one `POST /evaluate` request: `request.form.get("question")`
(absent or a string), `request.form.getlist("keywords")` (empty when absent), and
whether an audio file was uploaded. -/
structure EvaluateRequest where
  question : Option String
  keywords : List String
  hasAudio : Bool

/-- Outcome of the `ffmpeg` conversion subprocess. -/
inductive FfmpegOutcome where
  | ok
  | calledProcessError (msg : String)
  | notFound
  | otherError (msg : String)

/-- The environment of one `evaluate` request: whether `audio.save` raises, the
ffmpeg outcome, the pipeline collaborators, and whether the cleanup `os.remove`
calls raise. -/
structure AppEnv where
  saveError : Option String
  ffmpeg : FfmpegOutcome
  pipeline : PipelineEnv
  cleanupFails : Bool

/-- Externally visible effects of one `evaluate` request. -/
structure AppEffects where
  savedAudio : Bool
  ranFfmpeg : Bool
  pipeline : PipelineCalls
  cleanupAttempted : Bool
  cleanupFailureLogged : Bool
deriving DecidableEq

/-- No effects performed. -/
def noEffects : AppEffects := ⟨false, false, noCalls, false, false⟩

/-- The JSON response of `evaluate` with its HTTP status. -/
inductive AppResponse where
  | failure (err msg : String) (status : ℕ)
  | success (transcript : String) (audio_metrics : AudioMetrics) (score : PyVal)
      (category_scores : PyVal) (comment : PyVal)

/-- Whether a response is the 200 success response. -/
def AppResponse.isSuccess : AppResponse → Bool
  | .success _ _ _ _ _ => true
  | .failure _ _ _ => false

/-- The `evaluate` endpoint: validate the three form fields, save the upload,
convert it with ffmpeg, run the pipeline, and map its result to an HTTP
response.  The file-cleanup loop runs after the pipeline block, on the success
path only; a cleanup failure is printed and the response is unchanged. -/
def evaluate (req : EvaluateRequest) (env : AppEnv) : AppResponse × AppEffects :=
  if pyFalsyOptStr req.question then
    (.failure "MISSING_QUESTION" "Question is required." 400, noEffects)
  else if req.keywords.isEmpty then
    (.failure "MISSING_KEYWORDS" "Keywords are required." 400, noEffects)
  else if !req.hasAudio then
    (.failure "MISSING_AUDIO" "Audio file is required." 400, noEffects)
  else
    match env.saveError with
    | some e =>
        (.failure "SAVE_FAILED" ("Failed to save audio file: " ++ e) 500, noEffects)
    | none =>
        match env.ffmpeg with
        | .calledProcessError e =>
            (.failure "CONVERSION_FAILED" ("Audio conversion failed: " ++ e) 500,
             ⟨true, true, noCalls, false, false⟩)
        | .notFound =>
            (.failure "FFMPEG_NOT_FOUND" "FFmpeg is not installed or not found in PATH" 500,
             ⟨true, true, noCalls, false, false⟩)
        | .otherError e =>
            (.failure "CONVERSION_ERROR" ("Audio conversion error: " ++ e) 500,
             ⟨true, true, noCalls, false, false⟩)
        | .ok =>
            let pr := run_full_evaluation (req.question.getD "") req.keywords
              "uploaded_answer.wav" env.pipeline
            match pr.1 with
            | .error err msg status =>
                (.failure err msg status, ⟨true, true, pr.2, false, false⟩)
            | .success transcript _tdata metrics score cats comment =>
                (.success transcript metrics score cats comment,
                 ⟨true, true, pr.2, true, env.cleanupFails⟩)

/-! ## Question session: `next_question` (app.py, sections 2, 3, 6) -/

/-- One entry of the `questions` list. -/
structure Question where
  text : String
  keywords : List String
deriving DecidableEq

/-- The module-level session state: `current_index` and `current_question["text"]`. -/
structure SessionState where
  current_index : ℕ
  current_text : String
deriving DecidableEq

/-- Python `questions[i]["text"]` (the branches below only index in range). -/
def qtext (questions : List Question) (i : ℕ) : String :=
  (questions.getD i ⟨"", []⟩).text

/-- The `questions` list defined at the top of app.py. -/
def app_questions : List Question :=
  [⟨"Describe a situation when you had to explain something difficult to someone.",
    ["explain", "situation", "difficult", "understand", "communication"]⟩,
   ⟨"Do you agree or disagree: Students should be required to take public speaking courses in college.",
    ["public speaking", "students", "college", "required", "communication"]⟩,
   ⟨"Talk about a time when you worked as part of a group. What was your role?",
    ["group", "teamwork", "role", "collaboration", "responsibility"]⟩,
   ⟨"If you could make one improvement to your school, what would it be and why?",
    ["improvement", "school", "problem", "solution", "education"]⟩,
   ⟨"Describe a person you admire and explain why.",
    ["admire", "person", "inspiration", "reason", "qualities"]⟩]

/-- The initial session state: index 0 and the first question text. -/
def initial_state (questions : List Question) : SessionState :=
  ⟨0, qtext questions 0⟩

/-- The `POST /next_question` handler: with a non-empty question list, step to the
next index, or loop back to 0 at the end, update the shared state, and return the
new current question text (`none` models the 404 `NO_QUESTIONS` reply).  The
fire-and-forget text-to-speech thread has no result channel and is not modelled. -/
def next_question (questions : List Question) (s : SessionState) :
    SessionState × Option String :=
  if questions.length = 0 then
    (s, none)
  else if s.current_index + 1 < questions.length then
    let st : SessionState := ⟨s.current_index + 1, qtext questions (s.current_index + 1)⟩
    (st, some st.current_text)
  else
    let st : SessionState := ⟨0, qtext questions 0⟩
    (st, some st.current_text)

/-- The state transformer of one `advance`. -/
def advanceState (questions : List Question) (s : SessionState) : SessionState :=
  (next_question questions s).1

/-! ### Session lemmas -/

theorem next_question_eq (questions : List Question) (s : SessionState)
    (hN : questions.length ≠ 0) (hi : s.current_index < questions.length) :
    next_question questions s =
      (⟨(s.current_index + 1) % questions.length,
        qtext questions ((s.current_index + 1) % questions.length)⟩,
       some (qtext questions ((s.current_index + 1) % questions.length))) := by
  unfold next_question
  rw [if_neg hN]
  by_cases h : s.current_index + 1 < questions.length
  · rw [if_pos h, Nat.mod_eq_of_lt h]
  · rw [if_neg h]
    have hEq : s.current_index + 1 = questions.length := by omega
    rw [hEq, Nat.mod_self]

theorem advanceState_eq (questions : List Question) (s : SessionState)
    (hN : questions.length ≠ 0) (hi : s.current_index < questions.length) :
    advanceState questions s =
      ⟨(s.current_index + 1) % questions.length,
       qtext questions ((s.current_index + 1) % questions.length)⟩ := by
  unfold advanceState
  rw [next_question_eq questions s hN hi]

theorem advance_iterate (questions : List Question) (hN : questions.length ≠ 0) (k : ℕ)
    (s : SessionState) (hi : s.current_index < questions.length) :
    ((advanceState questions)^[k] s).current_index
        = (s.current_index + k) % questions.length
    ∧ (0 < k → ((advanceState questions)^[k] s).current_text
        = qtext questions ((s.current_index + k) % questions.length)) := by
  induction k with
  | zero =>
      refine ⟨?_, by omega⟩
      simp [Nat.mod_eq_of_lt hi]
  | succ n ih =>
      have hlt : ((advanceState questions)^[n] s).current_index < questions.length := by
        rw [ih.1]
        exact Nat.mod_lt _ (Nat.pos_of_ne_zero hN)
      rw [Function.iterate_succ_apply', advanceState_eq questions _ hN hlt, ih.1]
      constructor
      · rw [Nat.mod_add_mod, Nat.add_assoc]
      · intro _
        rw [Nat.mod_add_mod, Nat.add_assoc]

/-! ## Claims about the question session -/

/-- Claim C5: for every fixed question list of length N at least 1 and every
session state with index in range, `next_question` moves the index to
`(index + 1) mod N` and returns the new current question text, and N consecutive
advances return the session to the original question. -/
theorem next_question_advances_mod (questions : List Question) (s : SessionState)
    (hN : 0 < questions.length) (hi : s.current_index < questions.length) :
    (next_question questions s).1.current_index = (s.current_index + 1) % questions.length
    ∧ (next_question questions s).2
        = some (qtext questions ((s.current_index + 1) % questions.length))
    ∧ ((advanceState questions)^[questions.length] s).current_index = s.current_index
    ∧ ((advanceState questions)^[questions.length] s).current_text
        = qtext questions s.current_index := by
  have hN' : questions.length ≠ 0 := Nat.pos_iff_ne_zero.mp hN
  have hiter := advance_iterate questions hN' questions.length s hi
  have hmod : (s.current_index + questions.length) % questions.length = s.current_index := by
    rw [Nat.add_mod_right, Nat.mod_eq_of_lt hi]
  refine ⟨?_, ?_, ?_, ?_⟩
  · rw [next_question_eq questions s hN' hi]
  · rw [next_question_eq questions s hN' hi]
  · rw [hiter.1, hmod]
  · rw [hiter.2 hN, hmod]

/-- Witness for C5: the app question list (N = 5) starting from index 2. -/
theorem next_question_advances_mod_witness :
    (0 < app_questions.length ∧ 2 < app_questions.length)
    ∧ ((next_question app_questions ⟨2, qtext app_questions 2⟩).1.current_index
          = (2 + 1) % app_questions.length
       ∧ (next_question app_questions ⟨2, qtext app_questions 2⟩).2
          = some (qtext app_questions ((2 + 1) % app_questions.length))
       ∧ ((advanceState app_questions)^[app_questions.length]
            (⟨2, qtext app_questions 2⟩ : SessionState)).current_index = 2
       ∧ ((advanceState app_questions)^[app_questions.length]
            (⟨2, qtext app_questions 2⟩ : SessionState)).current_text
          = qtext app_questions 2) :=
  ⟨⟨by decide, by decide⟩,
   next_question_advances_mod app_questions ⟨2, qtext app_questions 2⟩ (by decide) (by decide)⟩

/-- Claim C9: starting from the initial session state (index 0), after every
sequence of advance operations the current index stays inside `[0, N-1]` and the
current question text equals the text of the question at that index. -/
theorem session_invariant (questions : List Question) (h : questions ≠ []) (k : ℕ) :
    ((advanceState questions)^[k] (initial_state questions)).current_index
        < questions.length
    ∧ ((advanceState questions)^[k] (initial_state questions)).current_text
        = qtext questions
            (((advanceState questions)^[k] (initial_state questions)).current_index) := by
  have hN : questions.length ≠ 0 := by
    simpa using List.length_pos.mpr h |>.ne'
  have h0 : (initial_state questions).current_index < questions.length :=
    Nat.pos_of_ne_zero hN
  have hiter := advance_iterate questions hN k (initial_state questions) h0
  cases k with
  | zero =>
      exact ⟨h0, rfl⟩
  | succ n =>
      have hidx := hiter.1
      have htext := hiter.2 (Nat.succ_pos n)
      constructor
      · rw [hidx]
        exact Nat.mod_lt _ (Nat.pos_of_ne_zero hN)
      · rw [htext, hidx]

/-- Witness for C9: seven advances over the app question list. -/
theorem session_invariant_witness :
    app_questions ≠ []
    ∧ (((advanceState app_questions)^[7] (initial_state app_questions)).current_index
          < app_questions.length
       ∧ ((advanceState app_questions)^[7] (initial_state app_questions)).current_text
          = qtext app_questions
              (((advanceState app_questions)^[7]
                  (initial_state app_questions)).current_index)) :=
  ⟨by decide, session_invariant app_questions (by decide) 7⟩

/-! ## Claims about the acoustic analyzer -/

theorem analyze_audio_avg_def (snd : SoundInput) :
    (analyze_audio snd).avg_pitch_hz
      = pyRound2 (if (snd.pitchFrames.filter (fun f => f != 0)).length ≠ 0
          then (snd.pitchFrames.filter (fun f => f != 0)).sum
                / (snd.pitchFrames.filter (fun f => f != 0)).length
          else 0) := rfl

theorem analyze_audio_wpm_def (snd : SoundInput) :
    (analyze_audio snd).estimated_wpm
      = pyRound2 ((snd.duration / (2 / 5) / snd.duration) * 60) := rfl

/-- Claim C7: for every audio input with positive duration, the estimated
words-per-minute reported by `analyze_audio` is the constant 150, because
`(duration / 0.4) / duration * 60` reduces to a constant. -/
theorem estimated_wpm_constant (snd : SoundInput) (h : 0 < snd.duration) :
    (analyze_audio snd).estimated_wpm = 150 := by
  have hd : snd.duration ≠ 0 := ne_of_gt h
  rw [analyze_audio_wpm_def]
  have hval : snd.duration / (2 / 5) / snd.duration * 60 = 150 := by
    field_simp
    ring
  rw [hval]
  exact pyRound2_150

/-- A ten-second input used as the C7 witness. -/
def c7_sound : SoundInput := ⟨10, []⟩

/-- Witness for C7: a ten-second silent clip reports exactly 150 WPM. -/
theorem estimated_wpm_constant_witness :
    (0 : ℚ) < c7_sound.duration ∧ (analyze_audio c7_sound).estimated_wpm = 150 :=
  ⟨by norm_num [c7_sound], estimated_wpm_constant c7_sound (by norm_num [c7_sound])⟩

/-- Claim C8: the reported average pitch is the (rounded) mean of the voiced
frames only, it is 0 when no frame is voiced, and it is never negative; the
mean is only formed when the voiced-frame list is non-empty, so the averaging
never divides by zero. -/
theorem average_pitch_is_voiced_mean (snd : SoundInput)
    (h : ∀ f ∈ snd.pitchFrames, 0 ≤ f) :
    (analyze_audio snd).avg_pitch_hz = pyRound2 (listMean (voicedFrames snd.pitchFrames))
    ∧ (voicedFrames snd.pitchFrames = [] → (analyze_audio snd).avg_pitch_hz = 0)
    ∧ 0 ≤ (analyze_audio snd).avg_pitch_hz := by
  have hfilter : snd.pitchFrames.filter (fun f => f != 0) = voicedFrames snd.pitchFrames := by
    unfold voicedFrames
    apply List.filter_congr
    intro x hx
    have hx0 := h x hx
    rcases eq_or_lt_of_le hx0 with heq | hlt
    · simp [← heq]
    · have hne : x ≠ 0 := ne_of_gt hlt
      simp [hlt, hne]
  have heq1 : (analyze_audio snd).avg_pitch_hz
      = pyRound2 (listMean (voicedFrames snd.pitchFrames)) := by
    rw [analyze_audio_avg_def, hfilter]
    unfold listMean
    rfl
  refine ⟨heq1, ?_, ?_⟩
  · intro hempty
    rw [heq1, hempty]
    simp [listMean, pyRound2_zero]
  · rw [heq1]
    apply pyRound2_nonneg
    unfold listMean
    split
    · apply div_nonneg
      · apply List.sum_nonneg
        intro x hx
        unfold voicedFrames at hx
        have hpos := of_decide_eq_true (List.mem_filter.mp hx).2
        exact le_of_lt hpos
      · positivity
    · exact le_refl 0

/-- A five-second input with one unvoiced and two voiced frames, used as the C8 witness. -/
def c8_sound : SoundInput := ⟨5, [0, 220, 180]⟩

/-- Witness for C8 at a concrete pitch track. -/
theorem average_pitch_is_voiced_mean_witness :
    (∀ f ∈ c8_sound.pitchFrames, 0 ≤ f)
    ∧ ((analyze_audio c8_sound).avg_pitch_hz
          = pyRound2 (listMean (voicedFrames c8_sound.pitchFrames))
       ∧ (voicedFrames c8_sound.pitchFrames = [] → (analyze_audio c8_sound).avg_pitch_hz = 0)
       ∧ 0 ≤ (analyze_audio c8_sound).avg_pitch_hz) := by
  have h : ∀ f ∈ c8_sound.pitchFrames, 0 ≤ f := by
    intro f hf
    simp [c8_sound] at hf
    rcases hf with rfl | rfl | rfl <;> norm_num
  exact ⟨h, average_pitch_is_voiced_mean c8_sound h⟩

/-! ### Pipeline lemmas -/

theorem run_full_empty_transcript (question : String) (keywords : List String)
    (audio_file : String) (env : PipelineEnv) (td : TranscriptionResult)
    (hq : question ≠ "") (haf : audio_file ≠ "")
    (hex : env.audioExists = true) (hdg : env.deepgram = some td)
    (hblank : pyStrip td.transcript = "") :
    run_full_evaluation question keywords audio_file env
      = (.error "EMPTY_TRANSCRIPT" "Transcription failed - no speech detected in audio" 422,
         ⟨true, false, false⟩) := by
  unfold run_full_evaluation
  rw [if_neg (by simp [hq, haf]), if_neg (by simp [hex])]
  simp only [hdg]
  rw [if_pos (Or.inr hblank)]

theorem run_full_judge_imp_nonblank (question : String) (keywords : List String)
    (audio_file : String) (env : PipelineEnv)
    (hj : (run_full_evaluation question keywords audio_file env).2.judgeRemote = true) :
    ∃ td, env.deepgram = some td
      ∧ ¬(td.transcript = "" ∨ pyStrip td.transcript = "") := by
  unfold run_full_evaluation at hj
  by_cases h1 : question = "" ∨ audio_file = ""
  · rw [if_pos h1] at hj
    simp [noCalls] at hj
  · rw [if_neg h1] at hj
    by_cases h2 : (!env.audioExists) = true
    · rw [if_pos h2] at hj
      simp [noCalls] at hj
    · rw [if_neg h2] at hj
      rcases hdg : env.deepgram with _ | td
      · simp only [hdg] at hj
        simp at hj
      · simp only [hdg] at hj
        by_cases h3 : td.transcript = "" ∨ pyStrip td.transcript = ""
        · rw [if_pos h3] at hj
          simp at hj
        · exact ⟨td, rfl, h3⟩

/-! ## Claims about the pipeline and the endpoint -/

/-- Claim C10: the keyword list has no effect on the pipeline outcome — for the
same question, audio file and collaborator responses, `run_full_evaluation`
returns the same result and call log for any two keyword lists, because the
`keywords` parameter is never read and the rubric prompt never mentions it. -/
theorem run_full_evaluation_ignores_keywords (question : String)
    (kw1 kw2 : List String) (audio_file : String) (env : PipelineEnv) :
    run_full_evaluation question kw1 audio_file env
      = run_full_evaluation question kw2 audio_file env := rfl

/-- Claim C6: a missing or empty question, a missing or empty keyword list, or
a missing audio payload makes `evaluate` fail with one of the three
missing-field errors at HTTP 400, with no effects performed at all (no save, no
conversion, no remote call). -/
theorem evaluate_missing_field_fails_fast (req : EvaluateRequest) (env : AppEnv)
    (h : pyFalsyOptStr req.question = true ∨ req.keywords = [] ∨ req.hasAudio = false) :
    ((evaluate req env).1 = .failure "MISSING_QUESTION" "Question is required." 400
      ∨ (evaluate req env).1 = .failure "MISSING_KEYWORDS" "Keywords are required." 400
      ∨ (evaluate req env).1 = .failure "MISSING_AUDIO" "Audio file is required." 400)
    ∧ (evaluate req env).2 = noEffects := by
  unfold evaluate
  by_cases h1 : pyFalsyOptStr req.question = true
  · rw [if_pos h1]
    exact ⟨Or.inl rfl, rfl⟩
  · rw [if_neg h1]
    by_cases h2 : req.keywords.isEmpty = true
    · rw [if_pos h2]
      exact ⟨Or.inr (Or.inl rfl), rfl⟩
    · rw [if_neg h2]
      have h3 : req.hasAudio = false := by
        rcases h with h | h | h
        · exact absurd h h1
        · exact absurd (by simp [h]) h2
        · exact h
      rw [if_pos (by simp [h3])]
      exact ⟨Or.inr (Or.inr rfl), rfl⟩

/-- Request and environment used as the C6 witness. -/
def c6_env : AppEnv :=
  ⟨none, .ok, ⟨true, some ⟨"hello", [], []⟩, ⟨3, [120]⟩, .noParsed⟩, false⟩

/-- Witness for C6: a request with no question at all. -/
theorem evaluate_missing_field_fails_fast_witness :
    (pyFalsyOptStr (none : Option String) = true ∨ ([] : List String) = [] ∨ false = false)
    ∧ (((evaluate ⟨none, ["k"], true⟩ c6_env).1
          = .failure "MISSING_QUESTION" "Question is required." 400
        ∨ (evaluate ⟨none, ["k"], true⟩ c6_env).1
          = .failure "MISSING_KEYWORDS" "Keywords are required." 400
        ∨ (evaluate ⟨none, ["k"], true⟩ c6_env).1
          = .failure "MISSING_AUDIO" "Audio file is required." 400)
       ∧ (evaluate ⟨none, ["k"], true⟩ c6_env).2 = noEffects) :=
  ⟨Or.inl rfl, evaluate_missing_field_fails_fast ⟨none, ["k"], true⟩ c6_env (Or.inl rfl)⟩

/-- Claim C3: when the three form fields are present, saving and conversion
succeed, and transcription succeeds but yields an empty or whitespace-only
transcript, `evaluate` returns the `EMPTY_TRANSCRIPT` error at HTTP 422, and
neither the acoustic analyzer nor the rubric judge is invoked. -/
theorem evaluate_blank_transcript_no_speech (req : EvaluateRequest) (env : AppEnv)
    (td : TranscriptionResult)
    (hq : pyFalsyOptStr req.question = false)
    (hk : req.keywords.isEmpty = false)
    (ha : req.hasAudio = true)
    (hsave : env.saveError = none)
    (hff : env.ffmpeg = .ok)
    (hex : env.pipeline.audioExists = true)
    (hdg : env.pipeline.deepgram = some td)
    (hblank : pyStrip td.transcript = "") :
    (evaluate req env).1
      = .failure "EMPTY_TRANSCRIPT" "Transcription failed - no speech detected in audio" 422
    ∧ (evaluate req env).2.pipeline.analyze = false
    ∧ (evaluate req env).2.pipeline.judgeRemote = false := by
  have hq' : req.question.getD "" ≠ "" := by
    rcases hqo : req.question with _ | s
    · rw [hqo] at hq
      simp [pyFalsyOptStr] at hq
    · rw [hqo] at hq
      simp [pyFalsyOptStr] at hq
      simpa using hq
  have hrun := run_full_empty_transcript (req.question.getD "") req.keywords
      "uploaded_answer.wav" env.pipeline td hq' (by simp) hex hdg hblank
  have heval : evaluate req env
      = (.failure "EMPTY_TRANSCRIPT" "Transcription failed - no speech detected in audio" 422,
         ⟨true, true, ⟨true, false, false⟩, false, false⟩) := by
    unfold evaluate
    rw [if_neg (by simp [hq]), if_neg (by simp [hk]), if_neg (by simp [ha])]
    simp only [hsave, hff, hrun]
  rw [heval]
  exact ⟨rfl, rfl, rfl⟩

/-- The blank transcription result used as the C3 witness. -/
def c3_td : TranscriptionResult := ⟨"   ", [], []⟩

/-- The environment used as the C3 witness. -/
def c3_env : AppEnv := ⟨none, .ok, ⟨true, some c3_td, ⟨2, []⟩, .noParsed⟩, false⟩

/-- The request used as the C3 witness. -/
def c3_req : EvaluateRequest := ⟨some "Talk about teamwork.", ["teamwork"], true⟩

/-- Witness for C3: a whitespace-only transcript at a concrete request. -/
theorem evaluate_blank_transcript_no_speech_witness :
    (pyFalsyOptStr c3_req.question = false ∧ c3_req.keywords.isEmpty = false
      ∧ c3_req.hasAudio = true ∧ c3_env.saveError = none ∧ c3_env.ffmpeg = .ok
      ∧ c3_env.pipeline.audioExists = true ∧ c3_env.pipeline.deepgram = some c3_td
      ∧ pyStrip c3_td.transcript = "")
    ∧ ((evaluate c3_req c3_env).1
        = .failure "EMPTY_TRANSCRIPT" "Transcription failed - no speech detected in audio" 422
      ∧ (evaluate c3_req c3_env).2.pipeline.analyze = false
      ∧ (evaluate c3_req c3_env).2.pipeline.judgeRemote = false) :=
  ⟨⟨rfl, rfl, rfl, rfl, rfl, rfl, rfl, rfl⟩,
   evaluate_blank_transcript_no_speech c3_req c3_env c3_td rfl rfl rfl rfl rfl rfl rfl rfl⟩

/-- A non-zero verdict used in the C2 counterexample. -/
def c2_verdict : Verdict := ⟨7, ⟨8, 6, 7, 7, 7⟩, "Well developed answer."⟩

/-- C2 counterexample: on a whitespace-only transcript, the judge the pipeline
uses (`judge_answer_gemini`) still invokes the remote judging service, and it
returns whatever the remote parsed verdict says (here score 7), not a fixed
zero-score verdict. -/
theorem gemini_judge_remote_called_on_blank_transcript :
    (judge_answer_gemini "Any question" "   " none (.parsedVerdict c2_verdict)).2 = true
    ∧ pyGet (judge_answer_gemini "Any question" "   " none
        (.parsedVerdict c2_verdict)).1 "score" (.int 0) = .int 7 :=
  ⟨rfl, rfl⟩

/-- Claim C2 (amended): the local whitespace short-circuit — a fixed zero-score
verdict with the standard unintelligible comment, returned without any remote
call — lives in `judge_answer_detailed`, which the pipeline does not use; the
pipeline judge `judge_answer_gemini` has no such short-circuit, but the pipeline
only ever reaches the remote judge on transcripts that are neither empty nor
whitespace-only, because `run_full_evaluation` rejects those first. -/
theorem whitespace_shortcircuit_in_detailed_judge (question answer : String)
    (scores : Option (List (String × ℚ))) (remote : String → String)
    (h : pyStrip answer = "") :
    judge_answer_detailed question answer scores remote = (empty_transcript_verdict_json, false)
    ∧ (∀ (q : String) (kw : List String) (af : String) (env : PipelineEnv),
        (run_full_evaluation q kw af env).2.judgeRemote = true →
        ∃ td, env.deepgram = some td
          ∧ ¬(td.transcript = "" ∨ pyStrip td.transcript = "")) := by
  constructor
  · unfold judge_answer_detailed
    rw [if_pos h]
  · intro q kw af env hj
    exact run_full_judge_imp_nonblank q kw af env hj

/-- Witness for the amended C2 at a concrete whitespace answer. -/
theorem whitespace_shortcircuit_in_detailed_judge_witness :
    pyStrip "   " = ""
    ∧ (judge_answer_detailed "Q" "   " none (fun _ => "reply")
          = (empty_transcript_verdict_json, false)
       ∧ (∀ (q : String) (kw : List String) (af : String) (env : PipelineEnv),
            (run_full_evaluation q kw af env).2.judgeRemote = true →
            ∃ td, env.deepgram = some td
              ∧ ¬(td.transcript = "" ∨ pyStrip td.transcript = ""))) :=
  ⟨rfl, whitespace_shortcircuit_in_detailed_judge "Q" "   " none (fun _ => "reply") rfl⟩

/-- Transcription result used in the C1 scenario. -/
def c1_td : TranscriptionResult := ⟨"hello world", [], []⟩

/-- Decoded audio used in the C1 scenario. -/
def c1_sound : SoundInput := ⟨10, [200]⟩

/-- Environment for the C1 scenario: every stage succeeds except the Gemini
call, which raises. -/
def c1_env : AppEnv := ⟨none, .ok, ⟨true, some c1_td, c1_sound, .raises "boom"⟩, false⟩

/-- Request for the C1 scenario. -/
def c1_req : EvaluateRequest :=
  ⟨some "Describe a person you admire and explain why.", ["admire"], true⟩

/-- Claim C1 (refuting evidence): when the rubric-judge remote call fails, the
pipeline does NOT return the tagged `EVALUATION_FAILED` error at HTTP 502 — it
returns the 200 success response carrying the substituted zero-score verdict,
because `create_error_verdict` stores its keys as `score`, `category_scores`
and `comment`, so the guard `if "error" in evaluation_result` in
`run_full_evaluation` can never fire. -/
theorem judge_failure_yields_success_with_zero_score :
    (evaluate c1_req c1_env).1
      = .success "hello world" (analyze_audio c1_sound) (.int 0)
          (.dict [("task_relevance", .int 0), ("grammar_lexis", .int 0),
                  ("discourse_management", .int 0), ("pronunciation_fluency", .int 0),
                  ("coherence_appropriateness", .int 0)])
          (.str "Error: Gemini evaluation failed: boom")
    ∧ (evaluate c1_req c1_env).1.isSuccess = true
    ∧ (evaluate c1_req c1_env).2.pipeline.judgeRemote = true :=
  ⟨rfl, rfl, rfl⟩

/-- Transcription result used in the C4 counterexample (empty transcript). -/
def c4_td : TranscriptionResult := ⟨"", [], []⟩

/-- Environment for the C4 counterexample: the upload is saved and converted,
then the pipeline exits with an error. -/
def c4_env : AppEnv := ⟨none, .ok, ⟨true, some c4_td, ⟨1, []⟩, .noParsed⟩, false⟩

/-- Request for the C4 counterexample. -/
def c4_req : EvaluateRequest := ⟨some "Q", ["k"], true⟩

/-- C4 counterexample: on an error exit of the pipeline, the temporary audio
files have been created (save and conversion ran) and the cleanup loop is never
reached — cleanup does not happen on every error exit path. -/
theorem cleanup_skipped_on_error_exit :
    (evaluate c4_req c4_env).1
      = .failure "EMPTY_TRANSCRIPT" "Transcription failed - no speech detected in audio" 422
    ∧ (evaluate c4_req c4_env).2.savedAudio = true
    ∧ (evaluate c4_req c4_env).2.ranFfmpeg = true
    ∧ (evaluate c4_req c4_env).2.cleanupAttempted = false :=
  ⟨rfl, rfl, rfl, rfl⟩

/-- Claim C4 (amended): the best-effort cleanup of the temporary audio files runs
exactly on the success exit path of `evaluate` — error exits skip it — and on
that path a cleanup failure is logged and never changes the response (the
response is independent of whether cleanup fails). -/
theorem cleanup_only_on_success_path (req : EvaluateRequest) (env : AppEnv) (b : Bool) :
    ((evaluate req env).2.cleanupAttempted = true ↔ (evaluate req env).1.isSuccess = true)
    ∧ (evaluate req ⟨env.saveError, env.ffmpeg, env.pipeline, b⟩).1 = (evaluate req env).1
    ∧ ((evaluate req env).2.cleanupAttempted = true →
        (evaluate req env).2.cleanupFailureLogged = env.cleanupFails) := by
  obtain ⟨sv, ff, pl, cf⟩ := env
  by_cases h1 : pyFalsyOptStr req.question = true
  · simp [evaluate, h1, noEffects, AppResponse.isSuccess]
  · by_cases h2 : req.keywords.isEmpty = true
    · simp [evaluate, h1, h2, noEffects, AppResponse.isSuccess]
    · by_cases h3 : req.hasAudio = true
      · rcases sv with _ | e
        · rcases ff with _ | e | _ | e
          · rcases hpr : (run_full_evaluation (req.question.getD "") req.keywords
                "uploaded_answer.wav" pl).1 with ⟨err, msg, st⟩ | ⟨t, tdata, m, sc, cs, cm⟩
            · simp [evaluate, h1, h2, h3, hpr, AppResponse.isSuccess]
            · simp [evaluate, h1, h2, h3, hpr, AppResponse.isSuccess]
          · simp [evaluate, h1, h2, h3, AppResponse.isSuccess]
          · simp [evaluate, h1, h2, h3, AppResponse.isSuccess]
          · simp [evaluate, h1, h2, h3, AppResponse.isSuccess]
        · simp [evaluate, h1, h2, h3, noEffects, AppResponse.isSuccess]
      · simp [evaluate, h1, h2, h3, noEffects, AppResponse.isSuccess]
